import Mathlib

/-!
Shallow embedding of `src/eidosian_monorepo/projects/rust_project/src/main.rs`.

The program defines one struct (`RunResult`), one producer function (`run`)
and a `main` entry point that prints the debug representation of the result
of `run` and exits. I/O is made explicit as a trace of `Effect` values, so
that purity and output claims can be stated. The serde-derived
serialization code is not part of the repository source; it is modelled
from the spec where required.
-/

/-- The `RunResult` struct from `main.rs`: two owned `String` fields,
`status` and `message`. -/
structure RunResult where
  status : String
  message : String
deriving DecidableEq, Repr

/-- `pub fn run() -> RunResult` from `main.rs`: constructs the record with
`status = "success"` and `message = "Hello from Rust project!"`. The `Unit`
argument models one invocation of the Rust function. -/
def run (_u : Unit) : RunResult :=
  RunResult.mk "success" "Hello from Rust project!"

/-- Observable effects of the program: a line written to standard output. -/
inductive Effect where
  | stdoutLine : String → Effect
deriving DecidableEq, Repr

/-- The body of `run` with its effect trace made explicit: the body consists
of a single struct construction and performs no I/O, so its trace is empty. -/
def runTrace (u : Unit) : List Effect × RunResult :=
  ([], run u)

/-- Rust `Debug` escaping of a single character inside a string, as produced
by the derived `Debug` implementation: a quote or backslash is escaped with a
backslash, every other character is printed as itself. -/
def escapeDebugChar (c : Char) : String :=
  if c = '\"' then "\\\"" else if c = '\\' then "\\\\" else String.singleton c

/-- Rust `Debug` formatting of a `String`: the escaped contents between
double quotes. -/
def rustDebugStr (s : String) : String :=
  "\"" ++ String.join (s.data.map escapeDebugChar) ++ "\""

/-- The derived `Debug` representation of a `RunResult`, as printed by
`println!("Result: \x7b:?\x7d", result)` in `main`. -/
def RunResult.debugFmt (r : RunResult) : String :=
  "RunResult \x7b status: " ++ rustDebugStr r.status ++
    ", message: " ++ rustDebugStr r.message ++ " \x7d"

/-- `fn main()` from `main.rs`, as a function from the process argument list
to the effect trace and the exit code: it calls `run`, prints one line
`Result: \x7b:?\x7d`-formatted, and returns exit code 0. The argument list is
never read by the body. -/
def mainRun (_args : List String) : List Effect × Nat :=
  let p := runTrace ()
  (p.1 ++ [Effect.stdoutLine ("Result: " ++ p.2.debugFmt)], 0)

/-- Modelled from the spec: the structured interchange format (a JSON-like
value tree with objects carrying string keys), which the spec names as the
target of the struct's serializable/deserializable capability; the actual
serde implementation is derive-generated and not present in the source. -/
inductive Json where
  | str : String → Json
  | num : Int → Json
  | bool : Bool → Json
  | null : Json
  | arr : List Json → Json
  | obj : List (String × Json) → Json

/-- Field lookup in an interchange-format object: the first binding of the
key wins. -/
def Json.lookupField (k : String) : List (String × Json) → Option Json
  | [] => none
  | (k', v) :: rest => if k' = k then some v else Json.lookupField k rest

/-- Modelled from the spec: the derived serializer for `RunResult` encodes
it as an object with the two string keys `status` and `message`. -/
def RunResult.toJson (r : RunResult) : Json :=
  Json.obj [("status", Json.str r.status), ("message", Json.str r.message)]

/-- Modelled from the spec: the derived deserializer for `RunResult`
requires an object binding both `status` and `message` to strings, and
reports an error on any other input (non-object input, a missing required
field, or a field bound to a non-string value). -/
def RunResult.fromJson : Json → Except String RunResult
  | Json.obj fields =>
    match Json.lookupField "status" fields, Json.lookupField "message" fields with
    | some (Json.str s), some (Json.str m) => Except.ok (RunResult.mk s m)
    | some (Json.str _), some _ => Except.error "invalid type: expected a string for field message"
    | some (Json.str _), none => Except.error "missing field message"
    | some _, _ => Except.error "invalid type: expected a string for field status"
    | none, _ => Except.error "missing field status"
  | _ => Except.error "invalid type: expected a map"

/-- C1: every call to `run` returns a `RunResult` whose `status` field is
`"success"` and whose `message` field is `"Hello from Rust project!"`. -/
theorem run_status_success_message_greeting (u : Unit) :
    (run u).status = "success" ∧ (run u).message = "Hello from Rust project!" :=
  ⟨rfl, rfl⟩

/-- C2: `run` is deterministic — any two calls return structurally equal
records. -/
theorem run_deterministic (u v : Unit) : run u = run v := rfl

/-- C3: the `RunResult` returned by `run` round-trips through the
interchange format — encoding then decoding yields the original record. -/
theorem run_result_roundtrips (u : Unit) :
    RunResult.fromJson (RunResult.toJson (run u)) = Except.ok (run u) := rfl

/-- C4: `run` cannot fail — it is total and every invocation returns the
`RunResult` record itself, never any error value. -/
theorem run_never_fails (u : Unit) :
    run u = RunResult.mk "success" "Hello from Rust project!" := rfl

/-- C5: running the program with no arguments emits exactly one standard
output line, of the exact debug form `Result: RunResult ...`, containing the
literal substrings `success` and `Hello from Rust project!`, and exits with
code 0. -/
theorem main_prints_one_line_and_exits_zero :
    (mainRun []).1 =
      [Effect.stdoutLine
        "Result: RunResult \x7b status: \"success\", message: \"Hello from Rust project!\" \x7d"] ∧
    (mainRun []).2 = 0 ∧
    (∃ a b : String,
      "Result: RunResult \x7b status: \"success\", message: \"Hello from Rust project!\" \x7d" =
        a ++ "success" ++ b) ∧
    (∃ a b : String,
      "Result: RunResult \x7b status: \"success\", message: \"Hello from Rust project!\" \x7d" =
        a ++ "Hello from Rust project!" ++ b) :=
  ⟨rfl, rfl,
    ⟨"Result: RunResult \x7b status: \"",
     "\", message: \"Hello from Rust project!\" \x7d", rfl⟩,
    ⟨"Result: RunResult \x7b status: \"success\", message: \"", "\" \x7d", rfl⟩⟩

/-- C6: for every argument list, running the program behaves identically to
running it with no arguments — the same output trace and exit code 0. -/
theorem main_ignores_args (args : List String) :
    mainRun args = mainRun [] ∧ (mainRun args).2 = 0 :=
  ⟨rfl, rfl⟩

/-- C7: every `RunResult` constructed by the program has both fields present
as well-defined strings. -/
theorem run_result_fields_present (u : Unit) :
    ∃ s m : String, run u = RunResult.mk s m ∧ (run u).status = s ∧ (run u).message = m :=
  ⟨"success", "Hello from Rust project!", rfl, rfl, rfl⟩

/-- C8: `run` has no side effects — its effect trace is empty and its only
observable outcome is the returned record. -/
theorem run_no_side_effects (u : Unit) :
    (runTrace u).1 = [] ∧ (runTrace u).2 = run u :=
  ⟨rfl, rfl⟩

/-- C9: `run` always terminates — every invocation returns a `RunResult`
value. -/
theorem run_terminates (u : Unit) : ∃ r : RunResult, run u = r :=
  ⟨run u, rfl⟩

/-- C10: deserialization of `RunResult` is strict — an input object that
lacks the key `status` or the key `message`, or binds either key to a
non-string value, deserializes to an error rather than a `RunResult`. -/
theorem fromJson_strict_on_required_fields (fields : List (String × Json))
    (h : Json.lookupField "status" fields = none ∨
         Json.lookupField "message" fields = none ∨
         (∃ v, Json.lookupField "status" fields = some v ∧ ∀ s, v ≠ Json.str s) ∨
         (∃ v, Json.lookupField "message" fields = some v ∧ ∀ s, v ≠ Json.str s)) :
    ∃ e, RunResult.fromJson (Json.obj fields) = Except.error e := by
  rcases hs : Json.lookupField "status" fields with _ | vs
  · exact ⟨"missing field status", by simp [RunResult.fromJson, hs]⟩
  · rcases hm : Json.lookupField "message" fields with _ | vm
    · cases vs
      case str s =>
        exact ⟨"missing field message", by simp [RunResult.fromJson, hs, hm]⟩
      all_goals
        exact ⟨"invalid type: expected a string for field status",
          by simp [RunResult.fromJson, hs, hm]⟩
    · cases vs
      case str s =>
        cases vm
        case str m =>
          exfalso
          rcases h with h | h | ⟨v, hv, hne⟩ | ⟨v, hv, hne⟩
          · exact Option.noConfusion (hs.symm.trans h)
          · exact Option.noConfusion (hm.symm.trans h)
          · exact hne s (Option.some.inj (hv.symm.trans hs))
          · exact hne m (Option.some.inj (hv.symm.trans hm))
        all_goals
          exact ⟨"invalid type: expected a string for field message",
            by simp [RunResult.fromJson, hs, hm]⟩
      all_goals
        exact ⟨"invalid type: expected a string for field status",
          by simp [RunResult.fromJson, hs, hm]⟩

/-- Witness for C10: the empty object lacks the key `status`, so
deserializing it yields an error. -/
theorem fromJson_strict_on_required_fields_witness :
    Json.lookupField "status" ([] : List (String × Json)) = none ∧
    ∃ e, RunResult.fromJson (Json.obj []) = Except.error e :=
  ⟨rfl, fromJson_strict_on_required_fields [] (Or.inl rfl)⟩
